import Mathlib

/-!
# Verification of the F1 dashboard's filtering and aggregation logic

Shallow embedding of `src/self_dashboard.py`: the data model (one row per
(race, driver) result), the loader's `rank` backfill, the three-stage filter
(year range, country, circuit set), and the five views' aggregation cores
(Overview, Race Insight, Driver Performance, Constructor Analysis,
Fastest Lap).

Tables are lists of rows plus two table-level flags recording whether the
`rank` and `fastestLapSpeed` columns are present in the backing CSV
(column presence in pandas is a property of the frame, not of a cell).
A raw `fastestLapSpeed` cell is numeric, non-numeric text, or missing;
`pd.to_numeric(..., errors="coerce")` maps the last two to missing.
Numeric cells are modelled as rationals.  Sorting (`sort_values`) is
modelled as a stable sort; with `ascending=False` pandas places missing
values last, which the `WithBot` key order reproduces.  Note that pandas'
default `kind="quicksort"` (numpy introsort) leaves the relative order of
tied keys unspecified once an array exceeds numpy's insertion-sort
threshold, so the stable sort here is one admissible tie resolution, not a
guarantee of the program: the theorems below either do not depend on tie
order at all, or evaluate sorts on arrays small enough that numpy sorts
them by stable insertion sort.
-/

/-- A raw `fastestLapSpeed` cell: a numeric value, non-numeric text
(which `pd.to_numeric(errors="coerce")` turns into missing), or missing. -/
inductive FLCell where
  | num (q : ℚ)
  | text
  | missing
deriving DecidableEq, Repr

/-- `pd.to_numeric(..., errors="coerce")` on one cell: numeric values pass
through, non-numeric and missing become missing (`NaN`). -/
def toNumeric : FLCell → Option ℚ
  | FLCell.num q => some q
  | FLCell.text => none
  | FLCell.missing => none

/-- One Result Record: a row of the CSV, one (race, driver) pairing.
String-valued columns that may hold `NaN` are `Option String`.
The `rank` field is only meaningful when the table's `hasRank` flag is set
(the loader backfills it from `positionOrder` otherwise). -/
structure Row where
  year : Int
  race_id : Nat
  race_name : String
  country : Option String
  circuit_name : Option String
  driver_name : Option String
  constructor_name : Option String
  grid : Int
  points : ℚ
  positionOrder : Int
  rank : Int
  fastestLapSpeed : FLCell
deriving DecidableEq, Repr

/-- A dataframe: rows plus flags for the presence of the optional
`rank` and `fastestLapSpeed` columns. -/
structure Table where
  hasRank : Bool
  hasFLS : Bool
  rows : List Row
deriving DecidableEq, Repr

/-- `load_data` (src/self_dashboard.py lines 13-18): reads the CSV and, when
the `rank` column does not exist, creates it as a copy of `positionOrder`. -/
def load_data (t : Table) : Table :=
  { hasRank := true
    hasFLS := t.hasFLS
    rows := if t.hasRank then t.rows
            else t.rows.map (fun r => { r with rank := r.positionOrder }) }

/-- Year stage (line 53): `df[(df["year"] >= year_min) & (df["year"] <= year_max)]`. -/
def filterYears (a b : Int) (rows : List Row) : List Row :=
  rows.filter (fun r => decide (a ≤ r.year) && decide (r.year ≤ b))

/-- Country stage (lines 55-56): applied only when the selection is not the
sentinel `"All Countries"`; pandas `== value` is false on a missing cell. -/
def filterCountry (c : String) (rows : List Row) : List Row :=
  if c = "All Countries" then rows
  else rows.filter (fun r => r.country == some c)

/-- Circuit stage (lines 58-62): if the sentinel `"All Circuits"` is among the
selections, no circuit filtering; otherwise `isin(selected_circuits)`, which is
false on a missing cell. -/
def filterCircuits (cs : List String) (rows : List Row) : List Row :=
  if "All Circuits" ∈ cs then rows
  else rows.filter (fun r =>
    match r.circuit_name with
    | some n => decide (n ∈ cs)
    | none => false)

/-- `filtered_df` (lines 53-62): the three filter stages applied in order;
the column-presence flags are untouched. -/
def filtered_df (t : Table) (a b : Int) (c : String) (cs : List String) : Table :=
  { t with rows := filterCircuits cs (filterCountry c (filterYears a b t.rows)) }

/-! ## Column minima / maxima (pandas `Series.min` / `Series.max`) -/

/-- Minimum of an integer column; `none` on an empty column (pandas `NaN`). -/
def colMin : List Int → Option Int
  | [] => none
  | x :: xs =>
    match colMin xs with
    | none => some x
    | some m => some (min x m)

/-- Maximum of an integer column; `none` on an empty column (pandas `NaN`). -/
def colMax : List Int → Option Int
  | [] => none
  | x :: xs =>
    match colMax xs with
    | none => some x
    | some m => some (max x m)

/-! ## Grouping and sorting helpers

pandas `groupby` emits group keys in ascending sorted order and drops
missing keys; `sort_values` is modelled as a stable sort. -/

/-- Lexicographic (codepoint) order on strings, the order numpy sorts
Python strings by.  Written over the character lists so that it evaluates
by kernel reduction on concrete inputs. -/
def strLeB (s t : String) : Bool := go s.data t.data
where
  go : List Char → List Char → Bool
  | [], _ => true
  | _ :: _, [] => false
  | a :: as, b :: bs => if a < b then true else if b < a then false else go as bs

/-- `Series.nunique`: number of distinct non-missing values. -/
def nunique (l : List (Option String)) : Nat := (l.filterMap id).dedup.length

/-- Distinct integer keys in ascending order (`groupby` key order). -/
def sortedKeysInt (l : List Int) : List Int :=
  l.dedup.insertionSort (fun a b => a ≤ b)

/-- Distinct string keys in ascending order (`groupby` key order). -/
def sortedKeysStr (l : List String) : List String :=
  l.dedup.insertionSort (fun a b => strLeB a b)

/-! ## Overview page (lines 72-87) -/

/-- `filtered_df.groupby("year")["race_id"].nunique()` (line 82). -/
def races_per_year (rows : List Row) : List (Int × Nat) :=
  (sortedKeysInt (rows.map (·.year))).map (fun y =>
    (y, ((rows.filter (fun r => r.year == y)).map (·.race_id)).dedup.length))

/-- `filtered_df[filtered_df["positionOrder"] == 1]` (line 86). -/
def winRows (rows : List Row) : List Row :=
  rows.filter (fun r => r.positionOrder == 1)

/-- `groupby("constructor_name").size()` over the win rows: group keys in
ascending order paired with their group sizes; missing keys dropped. -/
def winCounts (rows : List Row) : List (String × Nat) :=
  (sortedKeysStr ((winRows rows).filterMap (·.constructor_name))).map (fun k =>
    (k, ((winRows rows).filter (fun r => r.constructor_name == some k)).length))

/-- Line 86: win counts sorted descending, first 10 kept.  The stable
`insertionSort` fixes an order among equal win counts that line 86's
`sort_values` (default quicksort) leaves unspecified; no theorem below
relies on that tie order. -/
def top_constructors (rows : List Row) : List (String × Nat) :=
  ((winCounts rows).insertionSort (fun p q => q.2 ≤ p.2)).take 10

/-- The Overview page's computed values (lines 72-87). -/
structure OverviewOut where
  rowCount : Nat
  yearLo : Option Int
  yearHi : Option Int
  nDrivers : Nat
  nConstructors : Nat
  racesPerYear : List (Int × Nat)
  topConstructors : List (String × Nat)
deriving DecidableEq, Repr

def overview (t : Table) : OverviewOut :=
  { rowCount := t.rows.length
    yearLo := colMin (t.rows.map (·.year))
    yearHi := colMax (t.rows.map (·.year))
    nDrivers := nunique (t.rows.map (·.driver_name))
    nConstructors := nunique (t.rows.map (·.constructor_name))
    racesPerYear := races_per_year t.rows
    topConstructors := top_constructors t.rows }

/-! ## Race Insight page (lines 90-116): the per-race result table,
sorted ascending by finishing position. -/

def race_insight (t : Table) (y : Int) (rn : String) : List Row :=
  (t.rows.filter (fun r => r.year == y && r.race_name == rn)).insertionSort
    (fun r1 r2 => r1.positionOrder ≤ r2.positionOrder)

/-! ## Driver Performance / Constructor Analysis (lines 136-214) -/

/-- `groupby("year").agg(positionOrder mean, points sum)` (lines 152-155). -/
def perf_by_year (rows : List Row) : List (Int × ℚ × ℚ) :=
  (sortedKeysInt (rows.map (·.year))).map (fun y =>
    let g := rows.filter (fun r => r.year == y)
    (y, (g.map (fun r => (r.positionOrder : ℚ))).sum / (g.length : ℚ),
        (g.map (·.points)).sum))

structure EntityStats where
  races : Nat
  wins : Nat
  podiums : Nat
  perYear : List (Int × ℚ × ℚ)
deriving DecidableEq, Repr

def driver_df (t : Table) (name : String) : List Row :=
  t.rows.filter (fun r => r.driver_name == some name)

/-- Driver Performance metrics and per-year aggregation (lines 144-155). -/
def driver_view (t : Table) (name : String) : EntityStats :=
  let d := driver_df t name
  { races := d.length
    wins := (d.filter (fun r => r.positionOrder == 1)).length
    podiums := (d.filter (fun r => decide (r.positionOrder ∈ ([1, 2, 3] : List Int)))).length
    perYear := perf_by_year d }

def constructor_df (t : Table) (name : String) : List Row :=
  t.rows.filter (fun r => r.constructor_name == some name)

/-- Lines 205-209: per-driver mean position, summed points and race count,
sorted descending by points, first 5 kept. -/
def top_drivers (rows : List Row) : List (String × ℚ × ℚ × Nat) :=
  (((sortedKeysStr (rows.filterMap (·.driver_name))).map (fun k =>
      let g := rows.filter (fun r => r.driver_name == some k)
      (k, (g.map (fun r => (r.positionOrder : ℚ))).sum / (g.length : ℚ),
          (g.map (·.points)).sum, g.length))).insertionSort
    (fun p q => q.2.2.1 ≤ p.2.2.1)).take 5

structure ConstructorOut where
  races : Nat
  wins : Nat
  podiums : Nat
  perYear : List (Int × ℚ × ℚ)
  topDrivers : List (String × ℚ × ℚ × Nat)
deriving DecidableEq, Repr

/-- Constructor Analysis metrics and aggregations (lines 177-214). -/
def constructor_view (t : Table) (name : String) : ConstructorOut :=
  let d := constructor_df t name
  { races := d.length
    wins := (d.filter (fun r => r.positionOrder == 1)).length
    podiums := (d.filter (fun r => decide (r.positionOrder ∈ ([1, 2, 3] : List Int)))).length
    perYear := perf_by_year d
    topDrivers := top_drivers d }

/-! ## Fastest Lap page (lines 217-270) -/

/-- `filtered_df[filtered_df["rank"] == 1]` (line 224). -/
def fastest_laps (t : Table) : List Row :=
  t.rows.filter (fun r => r.rank == 1)

/-- Sort key for a coerced speed: missing values sort below every number,
so descending order puts them last (pandas default `na_position="last"`). -/
def obot (o : Option ℚ) : WithBot ℚ :=
  match o with
  | some q => (q : WithBot ℚ)
  | none => ⊥

def flKey (r : Row) : WithBot ℚ := obot (toNumeric r.fastestLapSpeed)

/-- Line 233: `sort_values("fastestLapSpeed", ascending=False).head(10)`. -/
def top_speeds (fl : List Row) : List Row :=
  (fl.insertionSort (fun r1 r2 => flKey r2 ≤ flKey r1)).take 10

/-- `Series.mean` skips missing values; an all-missing group gives `NaN`. -/
def meanOpt (l : List ℚ) : Option ℚ :=
  if l.isEmpty then none else some (l.sum / (l.length : ℚ))

/-- Line 243: `groupby("year")["fastestLapSpeed"].mean()`. -/
def speed_trend (fl : List Row) : List (Int × Option ℚ) :=
  (sortedKeysInt (fl.map (·.year))).map (fun y =>
    (y, meanOpt ((fl.filter (fun r => r.year == y)).filterMap
      (fun r => toNumeric r.fastestLapSpeed))))

/-- Lines 252-255: per-driver mean speed and fastest-lap count, sorted
descending by mean speed, first 10 kept. -/
def fastest_drivers (fl : List Row) : List (String × Option ℚ × Nat) :=
  (((sortedKeysStr (fl.filterMap (·.driver_name))).map (fun k =>
      let g := fl.filter (fun r => r.driver_name == some k)
      (k, meanOpt (g.filterMap (fun r => toNumeric r.fastestLapSpeed)),
       g.length))).insertionSort
    (fun p q => obot q.2.1 ≤ obot p.2.1)).take 10

/-- What the Fastest Lap page surfaces: a warning that the speed column is
absent from the dataset (line 222), a warning that there is no data for the
selected filters (line 230), or the computed tables (lines 232-270). -/
inductive FLView where
  | columnMissing
  | noData
  | data (top : List Row) (trend : List (Int × Option ℚ))
      (drivers : List (String × Option ℚ × Nat))
deriving DecidableEq, Repr

/-- The Fastest Lap page's control flow (lines 221-233). -/
def fastest_lap_view (t : Table) : FLView :=
  if t.hasFLS = false then FLView.columnMissing
  else
    let fl := fastest_laps t
    if fl.isEmpty || fl.all (fun r => (toNumeric r.fastestLapSpeed).isNone) then
      FLView.noData
    else
      FLView.data (top_speeds fl) (speed_trend fl) (fastest_drivers fl)

/-! ## Generic facts about the filter stages -/

theorem filterYears_sublist (a b : Int) (rows : List Row) :
    (filterYears a b rows).Sublist rows :=
  List.filter_sublist rows

theorem filterCountry_sublist (c : String) (rows : List Row) :
    (filterCountry c rows).Sublist rows := by
  unfold filterCountry
  split
  · exact List.Sublist.refl rows
  · exact List.filter_sublist rows

theorem filterCircuits_sublist (cs : List String) (rows : List Row) :
    (filterCircuits cs rows).Sublist rows := by
  unfold filterCircuits
  split
  · exact List.Sublist.refl rows
  · exact List.filter_sublist rows

theorem filtered_df_sublist (t : Table) (a b : Int) (c : String) (cs : List String) :
    (filtered_df t a b c cs).rows.Sublist t.rows :=
  ((filterCircuits_sublist cs _).trans (filterCountry_sublist c _)).trans
    (filterYears_sublist a b t.rows)

theorem mem_filterYears {a b : Int} {rows : List Row} {r : Row}
    (h : r ∈ filterYears a b rows) : a ≤ r.year ∧ r.year ≤ b := by
  have := List.of_mem_filter h
  simpa using this

/-- C1: every row surviving the full filter has its year in the inclusive
range, and the output rows form a sublist (hence a subset by row identity)
of the input table's rows. -/
theorem year_filter_sound (t : Table) (a b : Int) (c : String) (cs : List String) :
    (filtered_df t a b c cs).rows.Sublist t.rows ∧
      ∀ r ∈ (filtered_df t a b c cs).rows, a ≤ r.year ∧ r.year ≤ b := by
  refine ⟨filtered_df_sublist t a b c cs, fun r hr => ?_⟩
  have h1 : r ∈ filterCountry c (filterYears a b t.rows) :=
    (filterCircuits_sublist cs _).subset hr
  have h2 : r ∈ filterYears a b t.rows :=
    (filterCountry_sublist c _).subset h1
  exact mem_filterYears h2

/-! ## Concrete sample data -/

/-- A sample row: the 2020 Italian GP at Monza, winner with fastest lap. -/
def rowM : Row :=
  { year := 2020, race_id := 1, race_name := "Italian GP",
    country := some "Italy", circuit_name := some "Monza",
    driver_name := some "Driver A", constructor_name := some "Scuderia",
    grid := 1, points := 25, positionOrder := 1, rank := 1,
    fastestLapSpeed := FLCell.missing }

/-- A one-row sample table with both optional columns present. -/
def T0 : Table := { hasRank := true, hasFLS := true, rows := [rowM] }

/-- C2 counterexample: with a non-empty table surviving the year and country
stages, an *empty* circuit selection does not leave the table unchanged —
the `isin([])` branch removes every row. -/
theorem circuit_empty_selection_not_identity :
    (filtered_df T0 2020 2020 "All Countries" ([] : List String)).rows = [] ∧
      filterCountry "All Countries" (filterYears 2020 2020 T0.rows) = [rowM] := by
  decide

/-- C2 (amended): if the selection set contains the sentinel "All Circuits",
the circuit stage is the identity on the table produced by the year and
country stages; otherwise — including when the selection set is empty —
exactly the rows whose `circuit_name` is a member of the set are kept. -/
theorem circuit_sentinel_cases (t : Table) (a b : Int) (c : String) (cs : List String) :
    ("All Circuits" ∈ cs →
      (filtered_df t a b c cs).rows = filterCountry c (filterYears a b t.rows)) ∧
    ("All Circuits" ∉ cs →
      (filtered_df t a b c cs).rows =
        (filterCountry c (filterYears a b t.rows)).filter (fun r =>
          match r.circuit_name with
          | some n => decide (n ∈ cs)
          | none => false)) := by
  constructor <;> intro h <;> simp [filtered_df, filterCircuits, h]

theorem circuit_sentinel_cases_witness :
    ((filtered_df T0 2020 2020 "All Countries" ["All Circuits"]).rows =
      filterCountry "All Countries" (filterYears 2020 2020 T0.rows)) ∧
    ((filtered_df T0 2020 2020 "All Countries" ["Spa"]).rows =
      (filterCountry "All Countries" (filterYears 2020 2020 T0.rows)).filter (fun r =>
        match r.circuit_name with
        | some n => decide (n ∈ (["Spa"] : List String))
        | none => false)) :=
  ⟨(circuit_sentinel_cases T0 2020 2020 "All Countries" ["All Circuits"]).1 (by decide),
   (circuit_sentinel_cases T0 2020 2020 "All Countries" ["Spa"]).2 (by decide)⟩

/-- C8: when the country selection is not the sentinel, the country stage
keeps exactly the rows matching the selection: every surviving row matches;
a selection present in the data survives (non-empty output); a selection
absent from the data yields the empty list, not an error. -/
theorem country_filter_spec (rows : List Row) (c : String) (h : c ≠ "All Countries") :
    (∀ r ∈ filterCountry c rows, r.country = some c) ∧
    ((∃ r ∈ rows, r.country = some c) → filterCountry c rows ≠ []) ∧
    ((∀ r ∈ rows, r.country ≠ some c) → filterCountry c rows = []) := by
  unfold filterCountry
  rw [if_neg h]
  refine ⟨fun r hr => ?_, fun ⟨r, hr, hc⟩ => ?_, fun hall => ?_⟩
  · have := List.of_mem_filter hr
    simpa using this
  · have hm : r ∈ rows.filter (fun r => r.country == some c) :=
      List.mem_filter.mpr ⟨hr, by simp [hc]⟩
    exact List.ne_nil_of_mem hm
  · exact List.filter_eq_nil_iff.mpr (fun r hr => by simp [hall r hr])

theorem country_filter_spec_witness :
    (∀ r ∈ filterCountry "Italy" [rowM], r.country = some "Italy") ∧
    ((∃ r ∈ [rowM], r.country = some "Italy") → filterCountry "Italy" [rowM] ≠ []) ∧
    ((∀ r ∈ [rowM], r.country ≠ some "Italy") → filterCountry "Italy" [rowM] = []) :=
  country_filter_spec [rowM] "Italy" (by decide)

/-- C9: in the driver and constructor drill-downs over the filtered table,
the win metric counts exactly the rows with `positionOrder == 1`, the podium
metric counts exactly the rows with `positionOrder ∈ {1,2,3}`, and the
podium count is at least the win count. -/
theorem win_podium_counts (t : Table) (a b : Int) (c : String) (cs : List String)
    (dn cn : String) :
    ((driver_view (filtered_df t a b c cs) dn).wins =
      (driver_df (filtered_df t a b c cs) dn).countP (fun r => r.positionOrder == 1)) ∧
    ((driver_view (filtered_df t a b c cs) dn).podiums =
      (driver_df (filtered_df t a b c cs) dn).countP
        (fun r => decide (r.positionOrder ∈ ([1, 2, 3] : List Int)))) ∧
    (driver_view (filtered_df t a b c cs) dn).wins ≤
      (driver_view (filtered_df t a b c cs) dn).podiums ∧
    ((constructor_view (filtered_df t a b c cs) cn).wins =
      (constructor_df (filtered_df t a b c cs) cn).countP (fun r => r.positionOrder == 1)) ∧
    ((constructor_view (filtered_df t a b c cs) cn).podiums =
      (constructor_df (filtered_df t a b c cs) cn).countP
        (fun r => decide (r.positionOrder ∈ ([1, 2, 3] : List Int)))) ∧
    (constructor_view (filtered_df t a b c cs) cn).wins ≤
      (constructor_view (filtered_df t a b c cs) cn).podiums := by
  have hmono : ∀ (l : List Row),
      (l.filter (fun r => r.positionOrder == 1)).length ≤
        (l.filter (fun r => decide (r.positionOrder ∈ ([1, 2, 3] : List Int)))).length := by
    intro l
    rw [← List.countP_eq_length_filter, ← List.countP_eq_length_filter]
    refine List.countP_mono_left (fun r _ h1 => ?_)
    have : r.positionOrder = 1 := by simpa using h1
    simp [this]
  refine ⟨?_, ?_, hmono _, ?_, ?_, hmono _⟩ <;>
    simp [driver_view, constructor_view, List.countP_eq_length_filter]

/-! ## C3: an empty filter result degrades to "no data", never an error -/

/-- C3: when a filter combination leaves no rows, the filter returns an
empty table (not an error), and every view computes its designated
empty/"no data" result: Overview reports zero rows and no year span,
Race Insight an empty result table, the drill-downs all-zero metrics, and
Fastest Lap its "no data" notice (or the column-missing notice when the
speed column is absent from the dataset). -/
theorem empty_filter_views (t : Table) (a b : Int) (c : String) (cs : List String)
    (y : Int) (rn dn cn : String)
    (h : (filtered_df t a b c cs).rows = []) :
    overview (filtered_df t a b c cs) =
      { rowCount := 0, yearLo := none, yearHi := none, nDrivers := 0,
        nConstructors := 0, racesPerYear := [], topConstructors := [] } ∧
    race_insight (filtered_df t a b c cs) y rn = [] ∧
    driver_view (filtered_df t a b c cs) dn =
      { races := 0, wins := 0, podiums := 0, perYear := [] } ∧
    constructor_view (filtered_df t a b c cs) cn =
      { races := 0, wins := 0, podiums := 0, perYear := [], topDrivers := [] } ∧
    fastest_lap_view (filtered_df t a b c cs) =
      (if t.hasFLS then FLView.noData else FLView.columnMissing) := by
  have ht : filtered_df t a b c cs = { hasRank := t.hasRank, hasFLS := t.hasFLS, rows := [] } := by
    rw [← h]
    rfl
  rw [ht]
  refine ⟨rfl, rfl, rfl, rfl, ?_⟩
  cases hfb : t.hasFLS <;> rfl

theorem empty_filter_views_witness :
    overview (filtered_df T0 0 0 "All Countries" ["All Circuits"]) =
      { rowCount := 0, yearLo := none, yearHi := none, nDrivers := 0,
        nConstructors := 0, racesPerYear := [], topConstructors := [] } ∧
    race_insight (filtered_df T0 0 0 "All Countries" ["All Circuits"]) 2020 "Italian GP" = [] ∧
    driver_view (filtered_df T0 0 0 "All Countries" ["All Circuits"]) "Driver A" =
      { races := 0, wins := 0, podiums := 0, perYear := [] } ∧
    constructor_view (filtered_df T0 0 0 "All Countries" ["All Circuits"]) "Scuderia" =
      { races := 0, wins := 0, podiums := 0, perYear := [], topDrivers := [] } ∧
    fastest_lap_view (filtered_df T0 0 0 "All Countries" ["All Circuits"]) =
      (if T0.hasFLS then FLView.noData else FLView.columnMissing) :=
  empty_filter_views T0 0 0 "All Countries" ["All Circuits"] 2020 "Italian GP"
    "Driver A" "Scuderia" (by decide)

/-! ## C4: loading then filtering with the sentinels is the identity -/

theorem colMin_cons_ne_none (a : Int) (l : List Int) : colMin (a :: l) ≠ none := by
  rw [colMin]
  cases colMin l <;> simp

theorem colMax_cons_ne_none (a : Int) (l : List Int) : colMax (a :: l) ≠ none := by
  rw [colMax]
  cases colMax l <;> simp

theorem colMin_le_of_mem : ∀ {l : List Int} {m x : Int},
    colMin l = some m → x ∈ l → m ≤ x := by
  intro l
  induction l with
  | nil => intro m x hm hx; cases hx
  | cons a as ih =>
    intro m x hm hx
    rw [colMin] at hm
    cases hcm : colMin as with
    | none =>
      rw [hcm] at hm
      injection hm with hm2
      subst hm2
      have has : as = [] := by
        cases as with
        | nil => rfl
        | cons a2 as2 => exact absurd hcm (colMin_cons_ne_none a2 as2)
      subst has
      have hxa : x = a := by simpa using hx
      exact le_of_eq hxa.symm
    | some m2 =>
      rw [hcm] at hm
      injection hm with hm2
      rcases List.mem_cons.mp hx with h | h
      · exact ((hm2 ▸ min_le_left a m2 : _ ≤ a)).trans_eq h.symm
      · exact le_trans (hm2 ▸ min_le_right a m2) (ih hcm h)

theorem le_colMax_of_mem : ∀ {l : List Int} {m x : Int},
    colMax l = some m → x ∈ l → x ≤ m := by
  intro l
  induction l with
  | nil => intro m x hm hx; cases hx
  | cons a as ih =>
    intro m x hm hx
    rw [colMax] at hm
    cases hcm : colMax as with
    | none =>
      rw [hcm] at hm
      injection hm with hm2
      subst hm2
      have has : as = [] := by
        cases as with
        | nil => rfl
        | cons a2 as2 => exact absurd hcm (colMax_cons_ne_none a2 as2)
      subst has
      have hxa : x = a := by simpa using hx
      exact le_of_eq hxa
    | some m2 =>
      rw [hcm] at hm
      injection hm with hm2
      rcases List.mem_cons.mp hx with h | h
      · exact h.symm ▸ ((hm2 ▸ le_max_left a m2 : a ≤ _))
      · exact le_trans (ih hcm h) (hm2 ▸ le_max_right a m2)

/-- C4: filtering the loaded table with the full year range (its own year
minimum and maximum) and both sentinel selections returns the loaded table
unchanged — which is the raw table with the `rank` column backfilled from
`positionOrder` when the source omits it, and `rank` always present. -/
theorem full_range_round_trip (raw : Table) (ymin ymax : Int)
    (hmin : colMin ((load_data raw).rows.map (·.year)) = some ymin)
    (hmax : colMax ((load_data raw).rows.map (·.year)) = some ymax) :
    filtered_df (load_data raw) ymin ymax "All Countries" ["All Circuits"] = load_data raw ∧
    (load_data raw).hasRank = true ∧
    (load_data raw).rows = (if raw.hasRank then raw.rows
      else raw.rows.map (fun r => { r with rank := r.positionOrder })) := by
  refine ⟨?_, rfl, rfl⟩
  have hy : filterYears ymin ymax (load_data raw).rows = (load_data raw).rows := by
    apply List.filter_eq_self.mpr
    intro r hr
    have h1 : ymin ≤ r.year := colMin_le_of_mem hmin (List.mem_map_of_mem _ hr)
    have h2 : r.year ≤ ymax := le_colMax_of_mem hmax (List.mem_map_of_mem _ hr)
    simp [h1, h2]
  unfold filtered_df
  rw [hy]
  simp [filterCountry, filterCircuits]

/-- A two-row raw table without a `rank` column, for the round-trip witness. -/
def Traw : Table :=
  { hasRank := false, hasFLS := true
    rows := [rowM, { rowM with year := 2021, race_id := 2, positionOrder := 2, rank := 5 }] }

theorem full_range_round_trip_witness :
    filtered_df (load_data Traw) 2020 2021 "All Countries" ["All Circuits"] = load_data Traw ∧
    (load_data Traw).hasRank = true ∧
    (load_data Traw).rows = (if Traw.hasRank then Traw.rows
      else Traw.rows.map (fun r => { r with rank := r.positionOrder })) :=
  full_range_round_trip Traw 2020 2021 (by decide) (by decide)

/-! ## C10: the whole filter is one boolean row mask -/

/-- The conjunction of the three stages' row predicates. -/
def combinedMask (a b : Int) (c : String) (cs : List String) (r : Row) : Bool :=
  (decide (a ≤ r.year) && decide (r.year ≤ b)) &&
  ((c == "All Countries") || r.country == some c) &&
  (decide ("All Circuits" ∈ cs) ||
    (match r.circuit_name with
     | some n => decide (n ∈ cs)
     | none => false))

/-- C10: the three filter stages amount to one pure boolean row mask over
the input rows; consequently surviving rows keep their relative input order
and are unchanged field-for-field (the output is a sublist of the input). -/
theorem filter_is_boolean_mask (t : Table) (a b : Int) (c : String) (cs : List String) :
    (filtered_df t a b c cs).rows = t.rows.filter (combinedMask a b c cs) ∧
    (filtered_df t a b c cs).rows.Sublist t.rows := by
  refine ⟨?_, filtered_df_sublist t a b c cs⟩
  show filterCircuits cs (filterCountry c (filterYears a b t.rows)) = _
  unfold filterCircuits filterCountry filterYears
  by_cases hc : c = "All Countries" <;> by_cases hcs : "All Circuits" ∈ cs
  · simp only [if_pos hc, if_pos hcs]
    exact List.filter_congr (fun r _ => by simp [combinedMask, hc, hcs])
  · simp only [if_pos hc, if_neg hcs, List.filter_filter]
    refine List.filter_congr (fun r _ => ?_)
    simp [combinedMask, hc, hcs, Bool.and_comm, Bool.and_assoc, Bool.and_left_comm]
  · have hcb : (c == "All Countries") = false := by
      rw [beq_eq_false_iff_ne]; exact hc
    simp only [if_neg hc, if_pos hcs, List.filter_filter]
    refine List.filter_congr (fun r _ => ?_)
    simp [combinedMask, hcb, hcs, Bool.and_comm, Bool.and_assoc, Bool.and_left_comm]
  · have hcb : (c == "All Countries") = false := by
      rw [beq_eq_false_iff_ne]; exact hc
    simp only [if_neg hc, if_neg hcs, List.filter_filter]
    refine List.filter_congr (fun r _ => ?_)
    simp [combinedMask, hcb, hcs, Bool.and_comm, Bool.and_assoc, Bool.and_left_comm]

/-! ## C6 and C7: the Fastest Lap view -/

/-- C6: if the speed column is absent from the dataset the view reports the
column-missing notice; if every `rank == 1` row's speed coerces to missing
(in particular when there are no such rows) it reports the no-data notice;
and coercion turns a non-numeric cell into a missing value, not an error. -/
theorem fastest_lap_degradation (t : Table) :
    (t.hasFLS = false → fastest_lap_view t = FLView.columnMissing) ∧
    (t.hasFLS = true →
      (∀ r ∈ fastest_laps t, toNumeric r.fastestLapSpeed = none) →
      fastest_lap_view t = FLView.noData) ∧
    toNumeric FLCell.text = none := by
  refine ⟨fun h => ?_, fun h hall => ?_, rfl⟩
  · simp [fastest_lap_view, h]
  · have hcond : ((fastest_laps t).isEmpty ||
        (fastest_laps t).all (fun r => (toNumeric r.fastestLapSpeed).isNone)) = true := by
      simp only [Bool.or_eq_true, List.all_eq_true]
      right
      intro r hr
      simp [hall r hr]
    simp [fastest_lap_view, h, hcond]

/-- A table whose speed column is absent from the dataset. -/
def T1 : Table := { hasRank := true, hasFLS := false, rows := [rowM] }

theorem fastest_lap_degradation_witness :
    fastest_lap_view T1 = FLView.columnMissing ∧ fastest_lap_view T0 = FLView.noData :=
  ⟨(fastest_lap_degradation T1).1 rfl,
   (fastest_lap_degradation T0).2.1 rfl (by decide)⟩

/-- Two `rank == 1` rows with the same fastest-lap speed. -/
def r7a : Row :=
  { year := 2020, race_id := 2, race_name := "GP A", country := some "X",
    circuit_name := some "C1", driver_name := some "D1",
    constructor_name := some "K1", grid := 1, points := 25, positionOrder := 1,
    rank := 1, fastestLapSpeed := FLCell.num 200 }

def r7b : Row :=
  { r7a with
    year := 2021
    race_id := 3
    race_name := "GP B"
    driver_name := some "D2" }

def T7 : Table := { hasRank := true, hasFLS := true, rows := [r7a, r7b] }

/-- C7 counterexample: with two rank-1 rows of equal speed the view does
report a table (neither notice fires), that table is the two rows in input
order, and it is not strictly descending — consecutive speeds are equal. -/
theorem top_speeds_not_strictly_descending :
    top_speeds (fastest_laps T7) = [r7a, r7b] ∧
    fastest_lap_view T7 ≠ FLView.noData ∧
    fastest_lap_view T7 ≠ FLView.columnMissing ∧
    ¬ (flKey r7b < flKey r7a) := by decide

/-- C7 (amended): whenever the speed column is present and some `rank == 1`
row has a numeric speed after coercion, the view reports its data tables;
the reported top table has length `min(10, available rows)` and is sorted in
weakly descending (non-increasing, ties allowed) order of coerced speed,
missing speeds ordered last. -/
theorem top_speeds_sorted_weakly (t : Table) (h1 : t.hasFLS = true)
    (h2 : ∃ r ∈ fastest_laps t, (toNumeric r.fastestLapSpeed).isSome) :
    fastest_lap_view t = FLView.data (top_speeds (fastest_laps t))
      (speed_trend (fastest_laps t)) (fastest_drivers (fastest_laps t)) ∧
    (top_speeds (fastest_laps t)).length = min 10 (fastest_laps t).length ∧
    List.Sorted (fun r1 r2 : Row => flKey r2 ≤ flKey r1) (top_speeds (fastest_laps t)) := by
  haveI htot : IsTotal Row (fun r1 r2 => flKey r2 ≤ flKey r1) :=
    ⟨fun r1 r2 => le_total (flKey r2) (flKey r1)⟩
  haveI htr : IsTrans Row (fun r1 r2 => flKey r2 ≤ flKey r1) :=
    ⟨fun _ _ _ hab hbc => le_trans hbc hab⟩
  obtain ⟨r0, hr0, hs0⟩ := h2
  have hcond : ((fastest_laps t).isEmpty ||
      (fastest_laps t).all (fun r => (toNumeric r.fastestLapSpeed).isNone)) = false := by
    rw [Bool.or_eq_false_iff]
    constructor
    · rw [List.isEmpty_eq_false]
      exact List.ne_nil_of_mem hr0
    · rw [List.all_eq_false]
      refine ⟨r0, hr0, ?_⟩
      rw [Option.isSome_iff_ne_none] at hs0
      simpa [Option.isNone_iff_eq_none] using hs0
  refine ⟨?_, ?_, ?_⟩
  · simp [fastest_lap_view, h1, hcond]
  · rw [top_speeds, List.length_take, List.length_insertionSort]
  · exact List.Pairwise.sublist (List.take_sublist _ _)
      (List.sorted_insertionSort _ (fastest_laps t))

theorem top_speeds_sorted_weakly_witness :
    fastest_lap_view T7 = FLView.data (top_speeds (fastest_laps T7))
      (speed_trend (fastest_laps T7)) (fastest_drivers (fastest_laps T7)) ∧
    (top_speeds (fastest_laps T7)).length = min 10 (fastest_laps T7).length ∧
    List.Sorted (fun r1 r2 : Row => flKey r2 ≤ flKey r1) (top_speeds (fastest_laps T7)) :=
  top_speeds_sorted_weakly T7 rfl ⟨r7a, by decide, by decide⟩
